import Mathlib

/-!
Verification of the TalentScout hiring-assistant conversation core.

This development shallowly embeds the Python sources of the repository:

* `Utils` — `src/utils.py` (validators, experience extraction);
* `Models` — `models.py` (the dataclass `CandidateInfo` and its helpers);
* `Bot` — `chatbot.py` together with `config.py` (the session state machine
  driven by `HiringAssistantBot.process_message`);
* `CM` — `src/conversation_manager.py`, `src/llm_handler.py` and
  `src/data_models.py` (the pydantic-based conversation manager);
* `WApp` — `working_app.py` (the pattern-based extractor `extract_info_smart`).

External language-model calls are modelled as oracle parameters: a theorem
quantifying over the oracle holds for every possible response of the hosted
model.  Python exceptions are modelled with `Except`; an `Except.error` value
carries the state at the moment the exception is raised, reflecting that
Python keeps in-place mutations performed before the raise.  Python string
truthiness (`if s:`) is `s ≠ ""`, list truthiness is `l ≠ []`, and `None` is
`Option.none`.
-/

/-! ## Generic Python-style string helpers -/

/-- Does `hay` start with `pat`?  (character-list version of `str.startswith`) -/
def leadsWith : List Char → List Char → Bool
  | [], _ => true
  | _ :: _, [] => false
  | p :: ps, h :: hs => p == h && leadsWith ps hs

/-- Python `pat in hay` substring containment on character lists. -/
def containsSub : List Char → List Char → Bool
  | [], pat => leadsWith pat []
  | c :: rest, pat => leadsWith pat (c :: rest) || containsSub rest pat

/-- Python `pat in s` substring containment on strings. -/
def strContains (s pat : String) : Bool :=
  containsSub s.toList pat.toList

/-- Python `str.lower()` (ASCII case folding). -/
def pyLower (s : String) : String :=
  ⟨s.toList.map Char.toLower⟩

/-- Python `str.strip()` with no argument: remove surrounding whitespace. -/
def pyStrip (s : String) : String :=
  ⟨((s.toList.dropWhile Char.isWhitespace).reverse.dropWhile Char.isWhitespace).reverse⟩

/-- Worker for `pySplitWs` (accumulator holds the current word reversed). -/
def splitWsAux : List Char → List Char → List String
  | [], acc => if acc.isEmpty then [] else [(⟨acc.reverse⟩ : String)]
  | c :: cs, acc =>
    if c.isWhitespace then
      if acc.isEmpty then splitWsAux cs []
      else (⟨acc.reverse⟩ : String) :: splitWsAux cs []
    else splitWsAux cs (c :: acc)

/-- Python `str.split()` with no argument: split on whitespace runs,
discarding empty pieces. -/
def pySplitWs (s : String) : List String :=
  splitWsAux s.toList []

/-- Digits of a character run interpreted as a base-10 natural number. -/
def natOfDigits (cs : List Char) : Nat :=
  cs.foldl (fun acc c => acc * 10 + (c.toNat - 48)) 0

/-- Python `x or d` for an optional string field: the default is used when
the value is `None` or empty (falsy). -/
def pyOrStr (v : Option String) (d : String) : String :=
  match v with
  | some s => if s = "" then d else s
  | none => d

/-- Truthiness of an optional string, as Python evaluates
`if field:` on an `Optional[str]`. -/
def truthyStr (v : Option String) : Bool :=
  match v with
  | some s => s ≠ ""
  | none => false

/-- Truthiness of an optional integer, as Python evaluates
`if field:` on an `Optional[int]` (both `None` and `0` are falsy). -/
def truthyInt (v : Option Int) : Bool :=
  match v with
  | some n => n ≠ 0
  | none => false

/-- Helper `if b then [tag] else []`: one conditional entry of a missing-field
list built by successive `if ...: missing.append(tag)` statements. -/
def missTag (b : Bool) (tag : String) : List String :=
  if b then [tag] else []

/-! ## `src/utils.py` -/

namespace Utils

/-- The characters removed by the `re.sub` call in `validate_phone`
(the class `[\s\-\(\)\+]`: ASCII whitespace, dash, parentheses, plus). -/
def phoneSeparators : List Char :=
  [' ', '\t', '\n', '\r', '\x0c', '\x0b', '-', '(', ')', '+']

/-- Remove every separator character from the string. -/
def stripSeparators (s : String) : String :=
  ⟨s.toList.filter (fun c => !(phoneSeparators.contains c))⟩

/-- Python `str.isdigit()` restricted to ASCII: non-empty and all digits. -/
def pyIsDigit (s : String) : Bool :=
  !s.toList.isEmpty && s.toList.all Char.isDigit

/-- Model of `utils.validate_phone`: strip separators, require an all-digit
remainder of length 7 to 15. -/
def validate_phone (phone : String) : Bool :=
  if phone = "" then false
  else
    let cleaned := stripSeparators phone
    if !(pyIsDigit cleaned) then false
    else decide (7 ≤ cleaned.length) && decide (cleaned.length ≤ 15)

end Utils

/-! ## `models.py` (dataclass variant used by `chatbot.py`) -/

namespace Models

/-- Model of `CandidateInfo.validate_phone` from `models.py`: remove every
non-digit character (the `re.sub` removal of `\D`) and require 10 to 15
digits to remain. -/
def validate_phone (phone : String) : Bool :=
  let digits_only : String := ⟨phone.toList.filter Char.isDigit⟩
  decide (10 ≤ digits_only.length) && decide (digits_only.length ≤ 15)

end Models

/-- Number of digit characters occurring anywhere in `s` (used to state
what `Models.validate_phone` actually tests). -/
def digitCount (s : String) : Nat :=
  (s.toList.filter Char.isDigit).length

/-- Modelled from the spec: phone acceptance as the specification words it —
"after stripping separator characters, the remainder consists only of digits
and its length is between 7 and 15 inclusive". -/
def phoneSpecAccept (s : String) : Bool :=
  let r := Utils.stripSeparators s
  r.toList.all Char.isDigit && decide (7 ≤ r.length) && decide (r.length ≤ 15)

/-! ## `config.py` and `chatbot.py` -/

namespace Bot

/-- Model of `ENDING_KEYWORDS` from `config.py`, in source order. -/
def ENDING_KEYWORDS : List String :=
  ["bye", "goodbye", "exit", "quit", "end", "stop", "thanks", "thank you",
   "that\x27s all", "no more questions", "done", "finish"]

/-- Model of `CandidateInfo` from `models.py`.  `experience_years` is typed `str`
in the dataclass; `tech_stack` is normalised to a list by `__post_init__`. -/
structure CandidateInfo where
  full_name : Option String
  email : Option String
  phone : Option String
  experience_years : Option String
  desired_position : Option String
  location : Option String
  tech_stack : List String
deriving DecidableEq

/-- The freshly constructed candidate record (all fields defaulted). -/
def emptyCandidate : CandidateInfo :=
  { full_name := none, email := none, phone := none, experience_years := none,
    desired_position := none, location := none, tech_stack := [] }

/-- Model of `CandidateInfo.missing_fields` from `models.py`: one tag per falsy
field, in the fixed source order. -/
def missing_fields (c : CandidateInfo) : List String :=
  missTag (!truthyStr c.full_name) "full_name" ++
  missTag (!truthyStr c.email) "email" ++
  missTag (!truthyStr c.phone) "phone" ++
  missTag (!truthyStr c.experience_years) "experience_years" ++
  missTag (!truthyStr c.desired_position) "desired_position" ++
  missTag (!truthyStr c.location) "location" ++
  missTag (c.tech_stack.isEmpty) "tech_stack"

/-- Model of `CandidateInfo.is_complete`: all seven fields truthy and the tech
stack non-empty. -/
def is_complete (c : CandidateInfo) : Bool :=
  truthyStr c.full_name && truthyStr c.email && truthyStr c.phone &&
  truthyStr c.experience_years && truthyStr c.desired_position &&
  truthyStr c.location && !c.tech_stack.isEmpty && !c.tech_stack.isEmpty

/-- A dictionary handed to `CandidateInfo.update_from_dict`.  A field is
`some v` when the corresponding key is present with value `v`; `extra`
records whether the dictionary carries any further keys (they only affect
the emptiness test `if extracted_info:` in the caller, since
`update_from_dict` skips keys that are not attributes). -/
structure UpdateDict where
  full_name : Option String
  email : Option String
  phone : Option String
  experience_years : Option String
  desired_position : Option String
  location : Option String
  tech_stack : Option (List String)
  extra : Bool
deriving DecidableEq

/-- Python truthiness of the whole dictionary (`if extracted_info:`):
true when at least one key is present. -/
def UpdateDict.isTruthy (d : UpdateDict) : Bool :=
  d.full_name.isSome || d.email.isSome || d.phone.isSome ||
  d.experience_years.isSome || d.desired_position.isSome ||
  d.location.isSome || d.tech_stack.isSome || d.extra

/-- One scalar step of `update_from_dict`: `if hasattr(self, key) and value:
setattr(self, key, value)` — assign only when the key is present and its
value is truthy. -/
def updStr (cur : Option String) (v : Option String) : Option String :=
  match v with
  | some val => if val ≠ "" then some val else cur
  | none => cur

/-- Model of `CandidateInfo.update_from_dict`: every present truthy value is
assigned, including over an existing value; `tech_stack` is replaced by
any non-empty new list. -/
def update_from_dict (c : CandidateInfo) (d : UpdateDict) : CandidateInfo :=
  { full_name := updStr c.full_name d.full_name,
    email := updStr c.email d.email,
    phone := updStr c.phone d.phone,
    experience_years := updStr c.experience_years d.experience_years,
    desired_position := updStr c.desired_position d.desired_position,
    location := updStr c.location d.location,
    tech_stack :=
      match d.tech_stack with
      | some ts => if ts ≠ [] then ts else c.tech_stack
      | none => c.tech_stack }

/-- Model of `TechnicalQuestion` from `models.py`. -/
structure TechnicalQuestion where
  question : String
  technology : String
  difficulty : String
deriving DecidableEq

/-- Model of `ConversationSession` from `models.py` (timestamps are not modelled;
they never influence control flow). -/
structure Session where
  candidate : CandidateInfo
  state : String
  messages : List (String × String)
  technical_questions : List TechnicalQuestion
  current_question_index : Nat
deriving DecidableEq

/-- Model of `ConversationSession.add_message`. -/
def addMessage (s : Session) (role content : String) : Session :=
  { s with messages := s.messages ++ [(role, content)] }

/-- Per-turn results of the `LLMManager` calls made by the bot; a theorem
quantified over this oracle holds for every hosted-model behaviour. -/
structure LLMOracle where
  extract_information : String → List String → UpdateDict
  generate_info_prompt : List String → String
  generate_technical_questions : List String → String → List String
  validate_tech_stack : String → List String
  generate_response : String → String → String
  generate_ending_message : String → String

/-- Model of `HiringAssistantBot._handle_ending`: force the state to `ENDING` and
produce the model-generated farewell. -/
def handleEnding (o : LLMOracle) (s : Session) : String × Session :=
  let s := { s with state := "ending" }
  let candidate_name := pyOrStr s.candidate.full_name "candidate"
  (o.generate_ending_message candidate_name, s)

/-- Model of `HiringAssistantBot._handle_question_generation`. -/
def handleQuestionGeneration (o : LLMOracle) (s : Session) : String × Session :=
  let s :=
    if s.technical_questions = [] then
      let qs := o.generate_technical_questions s.candidate.tech_stack
        (pyOrStr s.candidate.experience_years "3")
      { s with technical_questions :=
          qs.map (fun q => { question := q, technology := "mixed", difficulty := "medium" }) }
    else s
  match s.technical_questions with
  | q :: _ =>
    let s := { s with state := "asking_questions", current_question_index := 0 }
    let total := toString s.technical_questions.length
    ("Great! I\x27ve prepared " ++ total ++
     " technical questions for you. Let\x27s begin:\n\n**Question 1 of " ++
     total ++ ":**\n" ++ q.question, s)
  | [] =>
    ("I\x27m having trouble generating questions right now. Let me know if you\x27d like to try again or if you have any questions for me.", s)

/-- The extraction-and-merge prefix of
`HiringAssistantBot._handle_info_collection`: extract against the fields
still missing and merge the result when the dictionary is truthy. -/
def infoCollectUpdate (o : LLMOracle) (s : Session) (user_input : String) : Session :=
  let missing := missing_fields s.candidate
  let extracted := o.extract_information user_input missing
  if extracted.isTruthy then { s with candidate := update_from_dict s.candidate extracted }
  else s

/-- Model of `HiringAssistantBot._handle_info_collection`. -/
def handleInfoCollection (o : LLMOracle) (s : Session) (user_input : String) :
    String × Session :=
  let s := infoCollectUpdate o s user_input
  let missing := missing_fields s.candidate
  if missing = [] then
    if s.candidate.tech_stack = [] then
      ("Great! I have all your basic information. Now, could you please tell me about your technical skills and tech stack? Please mention the programming languages, frameworks, databases, and tools you\x27re proficient in.",
       { s with state := "collecting_tech_stack" })
    else
      handleQuestionGeneration o { s with state := "generating_questions" }
  else
    (o.generate_info_prompt missing, s)

/-- Model of `HiringAssistantBot._handle_tech_stack_collection`. -/
def handleTechStackCollection (o : LLMOracle) (s : Session) (user_input : String) :
    String × Session :=
  let tech_stack := o.validate_tech_stack user_input
  if tech_stack ≠ [] then
    let s := { s with candidate := { s.candidate with tech_stack := tech_stack },
                      state := "generating_questions" }
    ("Perfect! I\x27ve noted your tech stack: " ++ String.intercalate ", " tech_stack ++
     ". Now I\x27ll generate some technical questions to assess your skills. Please give me a moment...", s)
  else
    ("I couldn\x27t identify any specific technologies from your response. Could you please list your technical skills more clearly? For example: Python, React, MySQL, AWS, etc.", s)

/-- Model of `HiringAssistantBot._handle_question_answering`. -/
def handleQuestionAnswering (o : LLMOracle) (s : Session) : String × Session :=
  let total := s.technical_questions.length
  let s := { s with current_question_index := s.current_question_index + 1 }
  if s.current_question_index < total then
    let next_question :=
      (s.technical_questions.get? s.current_question_index).getD
        { question := "", technology := "", difficulty := "medium" }
    let question_num := s.current_question_index + 1
    ("Thank you for your answer. Here\x27s the next question:\n\n**Question " ++
     toString question_num ++ " of " ++ toString total ++ ":**\n" ++
     next_question.question, s)
  else
    let s := { s with state := "ending" }
    handleEnding o s

/-- Does the utterance contain an ending keyword (`any(keyword in
user_input.lower() for keyword in ENDING_KEYWORDS)`)? -/
def containsEndingKeyword (user_input : String) : Bool :=
  ENDING_KEYWORDS.any (fun keyword => strContains (pyLower user_input) keyword)

/-- Model of `HiringAssistantBot.process_message` on an existing session: record
the user message, short-circuit to the ending on a keyword, otherwise
dispatch on the current state; finally record the assistant message. -/
def process_message (o : LLMOracle) (s : Session) (user_input : String) :
    String × Session :=
  let s := addMessage s "user" user_input
  let r :=
    if containsEndingKeyword user_input then handleEnding o s
    else if s.state = "collecting_info" then handleInfoCollection o s user_input
    else if s.state = "collecting_tech_stack" then handleTechStackCollection o s user_input
    else if s.state = "generating_questions" then handleQuestionGeneration o s
    else if s.state = "asking_questions" then handleQuestionAnswering o s
    else (o.generate_response user_input "General conversation", s)
  (r.1, addMessage r.2 "assistant" r.1)

/-- Session produced by `HiringAssistantBot.start_conversation` when the
model greets with `greeting`: fresh candidate, greeting recorded, state
already advanced to `COLLECTING_INFO`. -/
def startSession (greeting : String) : Session :=
  { candidate := emptyCandidate, state := "collecting_info",
    messages := [("assistant", greeting)], technical_questions := [],
    current_question_index := 0 }

/-- Sessions reachable through `start_conversation` followed by any number
of `process_message` turns (with arbitrary model behaviour each turn). -/
inductive Reachable : Session → Prop
  | start (greeting : String) : Reachable (startSession greeting)
  | step (o : LLMOracle) (user_input : String) {s : Session} :
      Reachable s → Reachable (process_message o s user_input).2

end Bot

/-! ## `src/utils.py`, continued: email validation and experience parsing -/

namespace Utils

/-- Characters of the regex class `[a-zA-Z0-9._%+-]` (the local part of
the email pattern). -/
def localClass (c : Char) : Bool :=
  c.isAlphanum || c = '.' || c = '_' || c = '%' || c = '+' || c = '-'

/-- Characters of the regex class `[a-zA-Z0-9.-]` (the domain part). -/
def domainClass (c : Char) : Bool :=
  c.isAlphanum || c = '.' || c = '-'

/-- Split a character list at the first occurrence of `ch`, returning the
parts before and after it. -/
def splitFirstAt (ch : Char) : List Char → Option (List Char × List Char)
  | [] => none
  | c :: cs =>
    if c = ch then some ([], cs)
    else (splitFirstAt ch cs).map (fun p => (c :: p.1, p.2))

/-- Model of `utils.validate_email`: `re.match` of
`^[a-zA-Z0-9._%+-]+@[a-zA-Z0-9.-]+\.[a-zA-Z]{2,}$`.  The anchored match
succeeds exactly when the part before the first `@` is a non-empty run of
local-class characters and the part after it consists of domain-class
characters ending in a dot followed by at least two letters. -/
def validate_email (email : String) : Bool :=
  if email = "" then false
  else
    match splitFirstAt '@' email.toList with
    | none => false
    | some (local_part, rest) =>
      let rev := rest.reverse
      let tld := rev.takeWhile Char.isAlpha
      !local_part.isEmpty && local_part.all localClass &&
      rest.all domainClass &&
      decide (2 ≤ tld.length) &&
      ((rev.drop tld.length).head? == some '.') &&
      !(rev.drop (tld.length + 1)).isEmpty

/-- Python `int(text)`: optional surrounding whitespace, optional sign,
then one or more ASCII digits (underscore grouping is not modelled). -/
def pyInt? (s : String) : Option Int :=
  let cs := (pyStrip s).toList
  match cs with
  | [] => none
  | c :: rest =>
    let sign : Int := if c = '-' then -1 else 1
    let digits := if c = '-' || c = '+' then rest else cs
    if !digits.isEmpty && digits.all Char.isDigit then
      some (sign * (natOfDigits digits : Int))
    else none

/-- Does the character list start with the unit alternative
`(?:years?|yrs?)` of the experience patterns, i.e. with `year` or `yr`? -/
def startsWithYearUnit (cs : List Char) : Bool :=
  leadsWith ['y', 'e', 'a', 'r'] cs || leadsWith ['y', 'r'] cs

/-- Leftmost search for `(\d+(?:\.\d+)?)\s*(?:years?|yrs?)` on a lowered
character list, returning the integer part of the first matching number
(`int(float(...))` truncates the fractional part away). -/
def yearPatSearch : List Char → Option Nat
  | [] => none
  | c :: cs =>
    if c.isDigit then
      let run := (c :: cs).takeWhile Char.isDigit
      let rest1 := (c :: cs).dropWhile Char.isDigit
      let rest2 :=
        match rest1 with
        | d :: ds =>
          if d = '.' && (ds.head?.getD ' ').isDigit then ds.dropWhile Char.isDigit
          else rest1
        | [] => rest1
      let rest3 := rest2.dropWhile Char.isWhitespace
      if startsWithYearUnit rest3 then some (natOfDigits run)
      else yearPatSearch cs
    else yearPatSearch cs

/-- Value of the first maximal digit run, for the final fallback pattern
`(\d+)(?:\+|\s*plus)?` (the optional suffix never changes group 1). -/
def firstDigitRunNat : List Char → Option Nat
  | [] => none
  | c :: cs =>
    if c.isDigit then some (natOfDigits ((c :: cs).takeWhile Char.isDigit))
    else firstDigitRunNat cs

/-- Model of `utils.extract_experience_years`: direct `int` conversion first, then
the `N years` patterns, then the first bare number. -/
def extract_experience_years (text : String) : Option Int :=
  if text = "" then none
  else
    match pyInt? text with
    | some n => some n
    | none =>
      let tl := (pyLower text).toList
      match yearPatSearch tl with
      | some n => some (n : Int)
      | none => (firstDigitRunNat tl).map (fun n => (n : Int))

end Utils

/-! ## `src/data_models.py`, `src/llm_handler.py`, `src/conversation_manager.py` -/

namespace CM

/-- Model of `CandidateInfo` from `src/data_models.py` (pydantic model);
`experience_years` is an integer here. -/
structure CandidateInfo where
  name : Option String
  email : Option String
  phone : Option String
  experience_years : Option Int
  desired_position : Option String
  location : Option String
  tech_stack : List String
deriving DecidableEq

/-- Model of `TechnicalQuestion` from `src/data_models.py`. -/
structure TechnicalQuestion where
  technology : String
  question : String
  difficulty_level : String
  category : String
  expected_concepts : List String
deriving DecidableEq

/-- Model of `ConversationState` from `src/data_models.py`. -/
structure ConvState where
  candidate_info : CandidateInfo
  current_step : String
  information_complete : Bool
  questions_generated : Bool
  interview_complete : Bool
  technical_questions : List TechnicalQuestion
  missing_info : List String
deriving DecidableEq

/-- The raw dictionary returned by the model inside
`LLMHandler.extract_information`, as consumed by
`ConversationManager._extract_information`.  Scalar values are kept after
the `str(...)` coercion applied by the caller; `tech_stack` is `some`
exactly when the key is present with a list value (the
`isinstance(..., list)` test). -/
structure RawExtract where
  name : Option String
  email : Option String
  phone : Option String
  experience_years : Option String
  desired_position : Option String
  location : Option String
  tech_stack : Option (List String)
deriving DecidableEq

/-- The cleaned dictionary produced by
`ConversationManager._extract_information`. -/
structure ExtractedInfo where
  name : Option String
  email : Option String
  phone : Option String
  experience_years : Option Int
  desired_position : Option String
  location : Option String
  tech_stack : Option (List String)
deriving DecidableEq

/-- The cleaned dictionary with no keys. -/
def emptyExtracted : ExtractedInfo :=
  { name := none, email := none, phone := none, experience_years := none,
    desired_position := none, location := none, tech_stack := none }

/-- One scalar cleaning step: `if key in extracted and extracted[key]:
cleaned[key] = str(extracted[key]).strip()`. -/
def cleanStr (v : Option String) : Option String :=
  match v with
  | some s => if s ≠ "" then some (pyStrip s) else none
  | none => none

/-- One validated cleaning step (email and phone): the stripped value is
kept only when the validator accepts it. -/
def cleanValidated (validator : String → Bool) (v : Option String) : Option String :=
  match v with
  | some s =>
    if s ≠ "" then
      let t := pyStrip s
      if validator t then some t else none
    else none
  | none => none

/-- Model of `ConversationManager._extract_information`, cleaning a raw model
response.  The surrounding `try` means a model failure yields the empty
dictionary instead of an exception; see `extractInformationSafe`. -/
def cleanExtracted (r : RawExtract) : ExtractedInfo :=
  { name := cleanStr r.name,
    email := cleanValidated Utils.validate_email r.email,
    phone := cleanValidated Utils.validate_phone r.phone,
    experience_years :=
      match r.experience_years with
      | some s => Utils.extract_experience_years s
      | none => none,
    desired_position := cleanStr r.desired_position,
    location := cleanStr r.location,
    tech_stack :=
      match r.tech_stack with
      | some l =>
        let ts := l.filterMap (fun t => let t' := pyStrip t; if t' ≠ "" then some t' else none)
        if ts ≠ [] then some ts else none
      | none => none }

/-- The whole `_extract_information` body is wrapped in `try ... except:
return {}`; an unexpected failure of the model call therefore produces the
empty dictionary. -/
def extractInformationSafe (r : Except Unit RawExtract) : ExtractedInfo :=
  match r with
  | .ok raw => cleanExtracted raw
  | .error _ => emptyExtracted

/-- One scalar step of `_update_candidate_info`: `if not current_value or
value: setattr(...)` — assign whenever the current value is falsy or the
new value is truthy. -/
def mergeStr (cur : Option String) (v : Option String) : Option String :=
  match v with
  | some val => if !truthyStr cur || val ≠ "" then some val else cur
  | none => cur

/-- The integer variant of the same merge step (`experience_years`). -/
def mergeInt (cur : Option Int) (v : Option Int) : Option Int :=
  match v with
  | some val => if !truthyInt cur || val ≠ 0 then some val else cur
  | none => cur

/-- Model of `list(set(existing).union(set(new)))`, up to ordering: the Python set
union fixes only the element set, not the order, so the model keeps the
existing order and appends new elements, deduplicated.  Theorems rely on
membership only. -/
def pySetUnion (a b : List String) : List String :=
  (a ++ b).dedup

/-- Model of `ConversationManager._update_candidate_info`. -/
def updateCandidateInfo (c : CandidateInfo) (e : ExtractedInfo) : CandidateInfo :=
  { name := mergeStr c.name e.name,
    email := mergeStr c.email e.email,
    phone := mergeStr c.phone e.phone,
    experience_years := mergeInt c.experience_years e.experience_years,
    desired_position := mergeStr c.desired_position e.desired_position,
    location := mergeStr c.location e.location,
    tech_stack :=
      match e.tech_stack with
      | some ts => pySetUnion c.tech_stack ts
      | none => c.tech_stack }

/-- Model of `ConversationManager._get_missing_information` (note the `is None`
test for `experience_years`, unlike the truthiness tests elsewhere). -/
def getMissingInformation (c : CandidateInfo) : List String :=
  missTag (!truthyStr c.name) "name" ++
  missTag (!truthyStr c.email) "email" ++
  missTag (!truthyStr c.phone) "phone" ++
  missTag (c.experience_years.isNone) "experience_years" ++
  missTag (!truthyStr c.desired_position) "desired_position" ++
  missTag (!truthyStr c.location) "location" ++
  missTag (c.tech_stack.isEmpty) "tech_stack"

end CM

namespace CM

/-- Experience-tier computation inside
`ConversationManager._generate_technical_questions`: default `mid`, and
the refinements run only when `experience_years` is truthy — so both
`None` and `0` stay at `mid`. -/
def experienceLevel (experience_years : Option Int) : String :=
  match experience_years with
  | none => "mid"
  | some y =>
    if y = 0 then "mid"
    else if y < 2 then "junior"
    else if y ≥ 5 then "senior"
    else "mid"

/-- One entry of the JSON array parsed inside
`LLMHandler.generate_technical_questions`; each field is `some` when the
corresponding key is present. -/
structure QData where
  question : Option String
  technology : Option String
  difficulty : Option String
  concepts : Option (List String)
deriving DecidableEq

/-- Outcome of the model call and JSON parse inside
`LLMHandler.generate_technical_questions`: the call-and-parse raised
(`failure`), parsed to a non-list (`parsedNonList`), or parsed to a list
whose entries are dictionaries (`some`) or other values (`none`, which the
per-item handler in the conversation manager later skips). -/
inductive QuestionsOutcome where
  | failure
  | parsedNonList
  | parsedList (qs : List (Option QData))
deriving DecidableEq

/-- The dictionary emitted by `LLMHandler._fallback_questions` for one
technology. -/
def fallbackQData (tech : String) : QData :=
  { question := some ("Can you explain your experience with " ++ tech ++
      " and describe a project where you used it?"),
    technology := some tech,
    difficulty := some "intermediate",
    concepts := some ["experience", "practical application"] }

/-- Model of `LLMHandler._fallback_questions`: one template question for each of
the first three technologies. -/
def fallbackQuestions (tech_stack : List String) : List (Option QData) :=
  (tech_stack.take 3).map (fun tech => some (fallbackQData tech))

/-- Model of `LLMHandler.generate_technical_questions`: the parsed list on
success, the empty list when the JSON parses to a non-list, and the
fallback template when the call or the parse raises. -/
def llmGenerateTechnicalQuestions (o : QuestionsOutcome) (tech_stack : List String) :
    List (Option QData) :=
  match o with
  | .failure => fallbackQuestions tech_stack
  | .parsedNonList => []
  | .parsedList qs => qs

/-- Construction of one `TechnicalQuestion` inside the per-item `try` of
`_generate_technical_questions`.  `q_data.get("technology", tech_stack[0])`
evaluates `tech_stack[0]` eagerly, so an empty tech stack raises
`IndexError` for the item, which the handler skips (`none`). -/
def buildQuestion (tech_stack : List String) (q : QData) : Option TechnicalQuestion :=
  match tech_stack with
  | [] => none
  | t0 :: _ => some
    { technology := q.technology.getD t0,
      question := q.question.getD "",
      difficulty_level := q.difficulty.getD "intermediate",
      category := "other",
      expected_concepts := q.concepts.getD [] }

/-- Model of `ConversationManager._generate_technical_questions`: derive the tier,
obtain the model outcome, keep the first three entries and convert each
surviving dictionary. -/
def generateTechnicalQuestions (o : QuestionsOutcome) (tech_stack : List String)
    (experience_years : Option Int) : List TechnicalQuestion :=
  let _experience_level := experienceLevel experience_years
  let questions_data := llmGenerateTechnicalQuestions o tech_stack
  (questions_data.take 3).filterMap (fun oq => oq.bind (buildQuestion tech_stack))

/-- The `TechnicalQuestion` produced by the fallback template for one
technology, after conversion by `_generate_technical_questions`. -/
def fallbackTQ (tech : String) : TechnicalQuestion :=
  { technology := tech,
    question := "Can you explain your experience with " ++ tech ++
      " and describe a project where you used it?",
    difficulty_level := "intermediate",
    category := "other",
    expected_concepts := ["experience", "practical application"] }

/-! ### Prompt templates (`src/prompts.py`)

The template bodies are the static strings of `PromptTemplates`, with the
indentation whitespace of the Python triple-quoted literals flattened;
no theorem depends on their exact text. -/

/-- Model of `PromptTemplates.get_error_handling_prompt`. -/
def errorHandlingPrompt : String :=
  "I apologize, but I didn\x27t quite understand that. Could you please rephrase your response?\n\nIf you\x27re having trouble, you can:\n- Provide information step by step\n- Use simple, clear statements\n- Say \x22skip\x22 if you don\x27t want to provide certain information\n- Type \x22help\x22 for assistance"

/-- Model of `PromptTemplates.get_farewell_prompt`. -/
def farewellPrompt (candidate_name : String) : String :=
  "Thank you, " ++ candidate_name ++
  ", for taking the time to speak with me today!\n\nI\x27ve gathered all the necessary information about your background and technical skills. Your responses have been recorded and will be reviewed by our hiring team.\n\nHere\x27s what happens next:\n1. Our technical team will review your responses\n2. If there\x27s a good fit, we\x27ll reach out within 2-3 business days\n3. The next step would typically be a technical interview with our engineering team\n\nWe appreciate your interest in opportunities with TalentScout, and we\x27ll be in touch soon!\n\nHave a great day!"

/-- The experience-tier computation inside
`PromptTemplates.get_technical_question_prompt` (same truthiness guard as
`experienceLevel`, written with `< 5` instead of `>= 5`). -/
def promptTierOf (experience_years : Option Int) : String :=
  match experience_years with
  | none => "mid"
  | some y =>
    if y = 0 then "mid"
    else if y < 2 then "junior"
    else if y < 5 then "mid"
    else "senior"

/-- Model of `PromptTemplates.get_technical_question_prompt`. -/
def technicalQuestionPrompt (tech_stack : List String) (experience_years : Option Int) :
    String :=
  "Based on your tech stack (" ++ String.intercalate ", " tech_stack ++ ") and " ++
  promptTierOf experience_years ++
  "-level experience, I\x27ll ask you a few technical questions.\n\nPlease answer as thoroughly as you can. Feel free to explain your thought process, mention any trade-offs you consider, and provide examples from your experience when relevant.\n\nLet\x27s start with the first question:"

/-- Model of `PromptTemplates.get_tech_stack_clarification_prompt`. -/
def techStackClarificationPrompt (mentioned_techs : List String) : String :=
  if mentioned_techs ≠ [] then
    "I noticed you mentioned: " ++ String.intercalate ", " mentioned_techs ++
    "\n\nCould you tell me more about your technical skills? Please include:\n- Programming languages you\x27re proficient in\n- Frameworks and libraries you\x27ve worked with\n- Databases you have experience with\n- Any cloud platforms or development tools you use\n\nThis helps me ask more relevant technical questions!"
  else
    "Could you tell me about your technical skills and experience? Please include:\n- Programming languages you know\n- Frameworks and libraries you\x27ve used\n- Databases you\x27ve worked with\n- Any cloud platforms or development tools\n\nFor example: \x22I work with Python, Django, PostgreSQL, and AWS\x22"

/-- The per-field description table of
`PromptTemplates.get_conversation_prompt`. -/
def conversationFieldDescription (field : String) : String :=
  if field = "name" then "your full name"
  else if field = "email" then "your email address"
  else if field = "phone" then "your phone number"
  else if field = "experience_years" then "your years of experience"
  else if field = "desired_position" then "the position you\x27re interested in"
  else if field = "location" then "your current location"
  else if field = "tech_stack" then "your technical skills and preferred technologies"
  else field

/-- Model of `PromptTemplates.get_conversation_prompt`. -/
def conversationPrompt (missing_info : List String) : String :=
  match missing_info with
  | next_field :: _ =>
    "Thank you for that information! Could you please provide " ++
    conversationFieldDescription next_field ++
    "?\n\nThis helps us better match you with suitable opportunities and tailor our technical questions to your expertise."
  | [] =>
    "Perfect! I have all the basic information I need. Now I\x27d like to ask you a few technical questions based on your experience and tech stack. These questions will help us assess your technical proficiency and problem-solving skills.\n\nAre you ready to proceed with the technical questions?"

end CM

namespace CM

/-- Per-turn external behaviour for `ConversationManager.process_user_input`.
`rawExtract` is the outcome of the model call made inside
`_extract_information` (`error` when that call raises, which the inner
handler absorbs); `questionsOutcome` is the outcome inside
`LLMHandler.generate_technical_questions`.  The three fault flags model an
unexpected internal error raised during the corresponding prompt-template
rendering, the kind of error the outer `try` of `process_user_input`
exists to catch; a turn where every flag is `false` is a fault-free
turn. -/
structure TurnOracle where
  rawExtract : Except Unit RawExtract
  questionsOutcome : QuestionsOutcome
  contFault : Bool
  techPromptFault : Bool
  farewellFault : Bool

/-- Model of `ConversationManager._continue_info_gathering`.  The first six prompts
are string literals in the manager itself; the `tech_stack` branch and the
final fallthrough render a template and can therefore carry the injected
fault. -/
def continueInfoGathering (o : TurnOracle) (s : ConvState) :
    Except ConvState (String × ConvState) :=
  match s.missing_info with
  | [] => .ok ("Perfect! I have all the information I need.", s)
  | next_field :: _ =>
    if next_field = "name" then
      .ok ("Great! Could you please tell me your full name?", s)
    else if next_field = "email" then
      .ok ("Thank you! What\x27s your email address?", s)
    else if next_field = "phone" then
      .ok ("And your phone number?", s)
    else if next_field = "experience_years" then
      .ok ("How many years of professional experience do you have?", s)
    else if next_field = "desired_position" then
      .ok ("What position or role are you interested in?", s)
    else if next_field = "location" then
      .ok ("What\x27s your current location or preferred work location?", s)
    else if next_field = "tech_stack" then
      if o.contFault then .error s
      else .ok (techStackClarificationPrompt s.candidate_info.tech_stack, s)
    else
      if o.contFault then .error s
      else .ok (conversationPrompt s.missing_info, s)

/-- Model of `ConversationManager._start_technical_questions`. -/
def startTechnicalQuestionsMsg (tech_stack : List String) : String :=
  if tech_stack = [] then
    "I\x27d like to ask some technical questions, but I need to know more about your technical skills first. Could you tell me about the technologies you work with?"
  else
    "Excellent! I have all your basic information. Now I\x27d like to ask you some technical questions based on your expertise in " ++
    String.intercalate ", " (tech_stack.take 3) ++
    (if tech_stack.length > 3 then "..." else "") ++
    ".\n\nThese questions will help assess your technical knowledge and problem-solving approach. Ready to proceed?"

/-- Model of `ConversationManager._conclude_interview` (the surrounding f-string
flattened); the farewell template rendering carries the fault flag. -/
def concludeInterview (o : TurnOracle) (s : ConvState) :
    Except ConvState (String × ConvState) :=
  if o.farewellFault then .error s
  else
    let candidate_name := pyOrStr s.candidate_info.name "candidate"
    .ok ("Thank you for answering those technical questions! You\x27ve provided great insights into your technical knowledge and problem-solving approach.\n\n" ++
      farewellPrompt candidate_name ++
      "\n\nYour interview is now complete. You can review your information in the sidebar or export the interview data if needed.", s)

/-- Model of `ConversationManager._handle_greeting`: extract, merge, advance to
`info_gathering`, then prompt for what is still missing. -/
def handleGreeting (o : TurnOracle) (s : ConvState) :
    Except ConvState (String × ConvState) :=
  let extracted := extractInformationSafe o.rawExtract
  let s := { s with candidate_info := updateCandidateInfo s.candidate_info extracted }
  let s := { s with current_step := "info_gathering" }
  continueInfoGathering o s

/-- Model of `ConversationManager._handle_info_gathering`. -/
def handleInfoGathering (o : TurnOracle) (s : ConvState) :
    Except ConvState (String × ConvState) :=
  let extracted := extractInformationSafe o.rawExtract
  let s := { s with candidate_info := updateCandidateInfo s.candidate_info extracted }
  let missing := getMissingInformation s.candidate_info
  let s := { s with missing_info := missing }
  if missing = [] then
    let s := { s with information_complete := true, current_step := "tech_questions" }
    .ok (startTechnicalQuestionsMsg s.candidate_info.tech_stack, s)
  else
    continueInfoGathering o s

/-- Model of `ConversationManager._handle_technical_answer`: drop the answered
question; with at most one question left, move to the conclusion. -/
def handleTechnicalAnswer (o : TurnOracle) (s : ConvState) :
    Except ConvState (String × ConvState) :=
  match s.technical_questions with
  | _ :: next_question :: rest =>
    let s := { s with technical_questions := next_question :: rest }
    .ok ("Thank you for that answer! \n\n**Next Question (" ++
      next_question.technology ++ "):**\n" ++ next_question.question, s)
  | _ =>
    let s := { s with current_step := "conclusion", interview_complete := true }
    concludeInterview o s

/-- Model of `ConversationManager._handle_tech_questions`: generate the question
set on first entry (asking the first question, whose lead-in renders the
technical-question template), answer handling afterwards. -/
def handleTechQuestions (o : TurnOracle) (s : ConvState) :
    Except ConvState (String × ConvState) :=
  if !s.questions_generated then
    let tech_stack := s.candidate_info.tech_stack
    let experience_years := s.candidate_info.experience_years
    if tech_stack ≠ [] then
      let questions := generateTechnicalQuestions o.questionsOutcome tech_stack experience_years
      let s := { s with technical_questions := questions, questions_generated := true }
      match questions with
      | first_question :: _ =>
        if o.techPromptFault then .error s
        else .ok (technicalQuestionPrompt tech_stack experience_years ++
          "\n\n**Question 1 (" ++ first_question.technology ++ "):**\n" ++
          first_question.question, s)
      | [] =>
        .ok ("I\x27m having trouble generating questions right now. Could you tell me more about a recent project you worked on and the technologies you used?", s)
    else
      .ok ("I\x27d like to ask some technical questions, but I need to know more about your tech stack first. Could you tell me about the technologies you work with?", s)
  else
    handleTechnicalAnswer o s

/-- Model of `ConversationManager._handle_conclusion`: the farewell again (its
rendering carries the fault flag). -/
def handleConclusion (o : TurnOracle) (s : ConvState) :
    Except ConvState (String × ConvState) :=
  if o.farewellFault then .error s
  else .ok (farewellPrompt (pyOrStr s.candidate_info.name "candidate"), s)

/-- The dispatch inside the `try` of
`ConversationManager.process_user_input`.  An `error` result is a raised
exception carrying the state as mutated so far. -/
def processUserInputBody (o : TurnOracle) (user_input : String) (s : ConvState) :
    Except ConvState (String × ConvState) :=
  let _ := user_input
  if s.current_step = "greeting" then handleGreeting o s
  else if s.current_step = "info_gathering" then handleInfoGathering o s
  else if s.current_step = "tech_questions" then handleTechQuestions o s
  else if s.current_step = "conclusion" then handleConclusion o s
  else handleInfoGathering o s

/-- Model of `ConversationManager.process_user_input`: the `except` clause turns
any raised exception into the generic error-handling prompt, keeping the
state as already mutated. -/
def processUserInput (o : TurnOracle) (user_input : String) (s : ConvState) :
    String × ConvState :=
  match processUserInputBody o user_input s with
  | .ok r => r
  | .error s => (errorHandlingPrompt, s)

/-- Monotone extension of one candidate record by another: no scalar field
goes from truthy back to falsy, `experience_years` never returns to
`None`, and no tech-stack entry is lost. -/
def infoMono (c c' : CandidateInfo) : Prop :=
  (truthyStr c.name = true → truthyStr c'.name = true) ∧
  (truthyStr c.email = true → truthyStr c'.email = true) ∧
  (truthyStr c.phone = true → truthyStr c'.phone = true) ∧
  (truthyStr c.desired_position = true → truthyStr c'.desired_position = true) ∧
  (truthyStr c.location = true → truthyStr c'.location = true) ∧
  (c.experience_years ≠ none → c'.experience_years ≠ none) ∧
  (∀ t, t ∈ c.tech_stack → t ∈ c'.tech_stack)

end CM

/-! ## `working_app.py`: `extract_info_smart` -/

namespace WApp

/-- Regex word character (`\w`): alphanumeric or underscore. -/
def isWordChar (c : Char) : Bool :=
  c.isAlphanum || c = '_'

/-- Maximal runs of word characters (accumulator holds the current run
reversed); used for the word-boundary semantics of `\b\d{10,15}\b`. -/
def wordRunsAux : List Char → List Char → List (List Char)
  | [], acc => if acc.isEmpty then [] else [acc.reverse]
  | c :: cs, acc =>
    if isWordChar c then wordRunsAux cs (c :: acc)
    else if acc.isEmpty then wordRunsAux cs []
    else acc.reverse :: wordRunsAux cs []

/-- First match of the re.findall phone pattern (a 10-to-15-digit run
between word boundaries): the boundaries force the match to be a whole
maximal word-character run, so the first all-digit run of length 10 to
15 wins. -/
def findPhone (s : String) : Option String :=
  ((wordRunsAux s.toList []).find? (fun run =>
      run.all Char.isDigit && decide (10 ≤ run.length) && decide (run.length ≤ 15))).map
    (fun run => (⟨run⟩ : String))

/-- Attempt of the email pattern
`\b[A-Za-z0-9._%+-]+@[A-Za-z0-9.-]+\.[A-Z|a-z]{2,}\b` at one `@` sign:
`preRev` is the reversed text before the `@`, `post` the text after it.
The local part is the maximal local-class run before the `@` from its
first word character on (the earliest position where `\b` holds); after
the `@`, the backtracking match keeps the longest domain prefix followed
by a dot and a maximal alpha run of length at least two that ends on a
word boundary. -/
def tryEmailAt (preRev post : List Char) : Option (List Char) :=
  let run := (preRev.takeWhile Utils.localClass).reverse
  let local_part := run.dropWhile (fun c => !isWordChar c)
  if local_part.isEmpty then none
  else
    let M := post.takeWhile Utils.domainClass
    let afterM := (post.drop M.length).head?
    let valid : Nat → Bool := fun p =>
      decide (1 ≤ p) && (M.get? p == some '.') &&
      (let a := (M.drop (p + 1)).takeWhile Char.isAlpha
       decide (2 ≤ a.length) &&
       (match ((M.drop (p + 1)).drop a.length).head? with
        | some c => !isWordChar c
        | none =>
          match afterM with
          | some c => !isWordChar c
          | none => true))
    match ((List.range M.length).filter valid).max? with
    | some p =>
      let a := (M.drop (p + 1)).takeWhile Char.isAlpha
      some (local_part ++ '@' :: (M.take p ++ '.' :: a))
    | none => none

/-- Left-to-right scan over the `@` signs of the text. -/
def emailScanAux : List Char → List Char → Option (List Char)
  | [], _ => none
  | c :: cs, preRev =>
    if c = '@' then
      match tryEmailAt preRev cs with
      | some m => some m
      | none => emailScanAux cs (c :: preRev)
    else emailScanAux cs (c :: preRev)

/-- First match of the email pattern in `s` (the `emails[0]` of
`extract_info_smart`). -/
def findEmail (s : String) : Option String :=
  (emailScanAux s.toList []).map (fun cs => (⟨cs⟩ : String))

/-- The first maximal digit run of the text, kept as a string (the
first element of the re.findall digit-run matches, preserving leading
zeros). -/
def firstDigitRunStr : List Char → Option String
  | [] => none
  | c :: cs =>
    if c.isDigit then some (⟨(c :: cs).takeWhile Char.isDigit⟩ : String)
    else firstDigitRunStr cs

/-- Python `str.title()`: a letter is uppercased after a non-letter and
lowercased after a letter. -/
def pyTitleAux : Bool → List Char → List Char
  | _, [] => []
  | prevAlpha, c :: cs =>
    (if c.isAlpha then (if prevAlpha then c.toLower else c.toUpper) else c) ::
      pyTitleAux c.isAlpha cs

/-- Python `str.title()`. -/
def pyTitle (s : String) : String :=
  ⟨pyTitleAux false s.toList⟩

/-- The characters stripped from an extracted name (the `strip` set:
dot, comma, exclamation mark, double quote). -/
def namePunct : List Char := ['.', ',', '!', '\x22']

/-- Strip the name punctuation set from both ends. -/
def stripNamePunct (s : String) : String :=
  ⟨((s.toList.dropWhile (fun c => namePunct.contains c)).reverse.dropWhile
      (fun c => namePunct.contains c)).reverse⟩

/-- The scan over the words of the utterance after a self-introduction
cue fired: take the words after the first `am`/`is`/`me` that is not the
last word (`for i, word in enumerate(words): ... break`). -/
def cueScan : List String → Option (List String)
  | [] => none
  | w :: rest =>
    if (pyLower w = "am" || pyLower w = "is" || pyLower w = "me") && rest ≠ [] then
      some rest
    else cueScan rest

/-- Name extraction after a cue phrase: join the remaining words and
strip the trailing punctuation set. -/
def nameFromCue (input : String) : Option String :=
  (cueScan (pySplitWs input)).map
    (fun rest => stripNamePunct (String.intercalate " " rest))

/-- The self-introduction cue phrases. -/
def namePhrases : List String := ["my name is", "i am", "i\x27m", "call me"]

/-- The substrings whose presence blocks the short-utterance name
heuristic (checked against the original casing). -/
def nameMarkers : List String := ["@", ".com", ":", "year"]

/-- The name block of `extract_info_smart`.  In the `elif` branch Python
evaluates `user_input[0]` after the length test, so the empty string
raises `IndexError` there — modelled by `Except.error`. -/
def nameStep (input : String) : Except Unit (Option String) :=
  let lower := pyLower input
  if namePhrases.any (fun p => strContains lower p) then
    .ok (nameFromCue input)
  else if (pySplitWs input).length ≤ 3 then
    match input.toList with
    | [] => .error ()
    | c :: _ =>
      .ok (if c.isUpper && !(nameMarkers.any (fun m => strContains input m))
           then some (pyStrip input) else none)
  else .ok none

/-- The experience block: requires a time-unit cue in the lowered text,
then tags the first number with `months` or `years`. -/
def experienceStep (input lower : String) : Option String :=
  if strContains lower "year" || strContains lower "month" || strContains lower "experience" then
    (firstDigitRunStr input.toList).map (fun n =>
      if strContains lower "month" then n ++ " months" else n ++ " years")
  else none

/-- The role titles recognised by the position block, in source order. -/
def positionsList : List String :=
  ["software engineer", "data scientist", "frontend developer", "backend developer",
   "full stack developer", "ai engineer", "ml engineer", "web developer",
   "mobile developer"]

/-- The position block: first listed title occurring in the lowered text,
title-cased. -/
def positionStep (lower : String) : Option String :=
  (positionsList.find? (fun pos => strContains lower pos)).map pyTitle

/-- The location gazetteer of `extract_info_smart`, in source order. -/
def locationKeywords : List String :=
  ["pune", "mumbai", "delhi", "bangalore", "hyderabad", "chennai", "shirpur",
   "maharashtra", "india", "kolkata", "ahmedabad", "surat", "nagpur"]

/-- The four cities tested by the `elif` guard of the location block. -/
def bigCities : List String := ["pune", "mumbai", "delhi", "bangalore"]

/-- The six cities scanned by the loop inside that branch. -/
def cityLoop : List String :=
  ["pune", "mumbai", "delhi", "bangalore", "hyderabad", "chennai"]

/-- The location block of `extract_info_smart`. -/
def locationStep (lower : String) : Option String :=
  let found := locationKeywords.filter (fun loc => strContains lower loc)
  if found ≠ [] then
    if strContains lower "shirpur" && strContains lower "maharashtra" then
      some "Shirpur, Maharashtra"
    else if bigCities.any (fun c => strContains lower c) then
      (cityLoop.find? (fun c => strContains lower c)).map pyTitle
    else
      some (String.intercalate ", " (found.map pyTitle))
  else none

/-- The indicator substrings that switch the tech-stack block on. -/
def techIndicators : List String :=
  ["languages:", "frameworks:", "tools:", "tech stack", "technologies",
   "python", "java", "javascript"]

/-- The technology keyword list of the tech-stack block, in source order. -/
def techKeywords : List String :=
  ["python", "java", "javascript", "react", "node", "django", "flask", "sql",
   "html", "css", "tensorflow", "pytorch", "fastapi", "streamlit", "pandas",
   "numpy", "mongodb", "postgresql", "mysql", "git", "docker", "aws", "azure",
   "gcp"]

/-- The tech-stack block of `extract_info_smart`: a list-marker utterance
is kept whole, otherwise the matched keywords are joined. -/
def techStep (input lower : String) : Option String :=
  if techIndicators.any (fun ind => strContains lower ind) then
    if strContains lower "languages:" || strContains lower "frameworks:" then
      some (pyStrip input)
    else
      let found := techKeywords.filter (fun t => strContains lower t)
      if found ≠ [] then some (String.intercalate ", " found) else none
  else none

/-- The mapping returned by `extract_info_smart`: a field is `some` when
the corresponding key was assigned. -/
structure SmartExtract where
  name : Option String
  email : Option String
  phone : Option String
  experience : Option String
  position : Option String
  location : Option String
  tech_stack : Option String
deriving DecidableEq

/-- The empty mapping. -/
def emptySmart : SmartExtract :=
  { name := none, email := none, phone := none, experience := none,
    position := none, location := none, tech_stack := none }

/-- Model of `extract_info_smart` from `working_app.py`; `Except.error` is the
`IndexError` raised by `user_input[0]` on the empty string. -/
def extract_info_smart (user_input : String) : Except Unit SmartExtract :=
  let lower := pyLower user_input
  match nameStep user_input with
  | .error _ => .error ()
  | .ok nm =>
    .ok { name := nm,
          email := findEmail user_input,
          phone := findPhone user_input,
          experience := experienceStep user_input lower,
          position := positionStep lower,
          location := locationStep lower,
          tech_stack := techStep user_input lower }

/-- No recognised pattern fires on the utterance: every block of
`extract_info_smart` comes back empty. -/
def noPattern (u : String) : Bool :=
  (match nameStep u with | .ok none => true | _ => false) &&
  (findEmail u).isNone && (findPhone u).isNone &&
  (experienceStep u (pyLower u)).isNone && (positionStep (pyLower u)).isNone &&
  (locationStep (pyLower u)).isNone && (techStep u (pyLower u)).isNone

end WApp

/-! ## Auxiliary projections and concrete fixtures -/

namespace CM

/-- The state left by the turn, whether it finished normally or raised
(the `except` clause of `process_user_input` keeps the mutated state). -/
def resState (r : Except ConvState (String × ConvState)) : ConvState :=
  match r with
  | .ok p => p.2
  | .error s => s

/-- A raw extraction response with no keys. -/
def emptyRaw : RawExtract :=
  { name := none, email := none, phone := none, experience_years := none,
    desired_position := none, location := none, tech_stack := none }

/-- A fault-free turn in which the model extracts nothing and returns an
empty question list. -/
def quietOracle : TurnOracle :=
  { rawExtract := .ok emptyRaw, questionsOutcome := .parsedList [],
    contFault := false, techPromptFault := false, farewellFault := false }

/-- A turn in which an unexpected error is raised while the farewell is
being rendered. -/
def cexOracle : TurnOracle :=
  { rawExtract := .ok emptyRaw, questionsOutcome := .parsedList [],
    contFault := false, techPromptFault := false, farewellFault := true }

/-- A session mid-way through the technical questions with one question
left to answer. -/
def cexState : ConvState :=
  { candidate_info :=
      { name := some "Asha Rao", email := some "asha@example.com",
        phone := some "9876543210", experience_years := some 3,
        desired_position := some "Backend Developer", location := some "Pune",
        tech_stack := ["Python"] },
    current_step := "tech_questions", information_complete := true,
    questions_generated := true, interview_complete := false,
    technical_questions := [fallbackTQ "Python"], missing_info := [] }

/-- The state `cexState` is left in when the farewell rendering raises:
the step and completion flag were already mutated. -/
def cexStateAfter : ConvState :=
  { cexState with current_step := "conclusion", interview_complete := true }

/-- An information-gathering session that knows only the candidate name. -/
def monoState : ConvState :=
  { candidate_info :=
      { name := some "Asha Rao", email := none, phone := none,
        experience_years := none, desired_position := none, location := none,
        tech_stack := [] },
    current_step := "info_gathering", information_complete := false,
    questions_generated := false, interview_complete := false,
    technical_questions := [],
    missing_info := ["email", "phone", "experience_years", "desired_position",
                     "location", "tech_stack"] }

/-- A candidate record whose name is already set. -/
def cexCandidate : CandidateInfo :=
  { name := some "Alice", email := none, phone := none, experience_years := none,
    desired_position := none, location := none, tech_stack := [] }

/-- An extraction carrying a different non-empty name. -/
def cexExtract : ExtractedInfo :=
  { emptyExtracted with name := some "Bob" }

end CM

namespace Bot

/-- The extraction dictionary with no keys. -/
def emptyUpdateDict : UpdateDict :=
  { full_name := none, email := none, phone := none, experience_years := none,
    desired_position := none, location := none, tech_stack := none, extra := false }

/-- An extraction dictionary carrying only a tech-stack list. -/
def dictGo : UpdateDict :=
  { emptyUpdateDict with tech_stack := some ["Go"] }

/-- A concrete model behaviour: nothing is ever extracted and the
farewell is a fixed string. -/
def botOracle0 : LLMOracle :=
  { extract_information := fun _ _ => emptyUpdateDict,
    generate_info_prompt := fun _ => "",
    generate_technical_questions := fun _ _ => [],
    validate_tech_stack := fun _ => [],
    generate_response := fun _ _ => "",
    generate_ending_message := fun name => "Thank you, " ++ name ++ "! Farewell." }

end Bot

/-! ## Helper lemmas -/

theorem mem_missTag {b : Bool} {tag x : String} :
    x ∈ missTag b tag ↔ b = true ∧ x = tag := by
  cases b <;> simp [missTag]

theorem phoneBoolAux (l : List Char) :
    (if !(!l.isEmpty && l.all Char.isDigit) then false
     else decide (7 ≤ l.length) && decide (l.length ≤ 15))
    = (l.all Char.isDigit && decide (7 ≤ l.length) && decide (l.length ≤ 15)) := by
  rcases l with _ | ⟨c, cs⟩
  · decide
  · by_cases hall : (c :: cs).all Char.isDigit = true
    · simp [hall, Bool.and_assoc]
    · simp only [Bool.not_eq_true] at hall
      simp [hall]

theorem utils_phone_eq_spec (s : String) :
    Utils.validate_phone s = phoneSpecAccept s := by
  by_cases h0 : s = ""
  · subst h0; decide
  · unfold Utils.validate_phone phoneSpecAccept Utils.pyIsDigit
    simp only [if_neg h0]
    exact phoneBoolAux (Utils.stripSeparators s).toList

/-! ## Claim C7 -/

/-- C7 — counterexample.  The claim reads phone validation as "accept iff
after stripping separator characters the remainder is all digits of
length 7-15"; `Models.validate_phone` (one of the two cited validators)
violates both directions of that equivalence: it accepts
`"a1234567890"`, whose separator-stripped remainder contains a letter,
and rejects `"1234567"`, a 7-digit string the claimed rule accepts. -/
theorem C7_counterexample :
    Models.validate_phone "a1234567890" = true ∧
    phoneSpecAccept "a1234567890" = false ∧
    Models.validate_phone "1234567" = false ∧
    phoneSpecAccept "1234567" = true := by
  decide

/-- C7 — amended.  `utils.validate_phone` accepts exactly the strings the
claim describes (separator-stripped remainder all digits, length 7-15),
while `models.CandidateInfo.validate_phone` instead strips every
non-digit character and accepts iff 10 to 15 digits remain anywhere in
the input; both reject the 5-digit string `"12345"`. -/
theorem C7_amended_phone :
    (∀ s : String, Utils.validate_phone s = phoneSpecAccept s) ∧
    (∀ s : String,
      Models.validate_phone s = true ↔ (10 ≤ digitCount s ∧ digitCount s ≤ 15)) ∧
    Utils.validate_phone "12345" = false ∧
    Models.validate_phone "12345" = false := by
  refine ⟨utils_phone_eq_spec, fun s => ?_, by decide, by decide⟩
  simp [Models.validate_phone, digitCount]

/-- C7 — witness: the amended theorem applied at concrete inputs. -/
theorem C7_amended_phone_witness :
    Utils.validate_phone "987-654-3210" = phoneSpecAccept "987-654-3210" ∧
    (Models.validate_phone "9876543210" = true ↔
      (10 ≤ digitCount "9876543210" ∧ digitCount "9876543210" ≤ 15)) :=
  ⟨C7_amended_phone.1 "987-654-3210", C7_amended_phone.2.1 "9876543210"⟩

/-! ## Claim C4 -/

/-- C4 — counterexample.  The claim requires the tier `junior` whenever
`experience_years < 2`, hence at `0`; the code guards the refinement with
`if experience_years:`, so `0` is treated like a missing value and the
tier stays `mid`. -/
theorem C4_counterexample :
    CM.experienceLevel (some 0) = "mid" ∧
    CM.experienceLevel (some 0) ≠ "junior" ∧ (0 : Int) < 2 := by
  refine ⟨rfl, ?_, by decide⟩
  intro h
  exact absurd h (by decide)

/-- C4 — amended.  Over `experience_years` in `[0, 50]` the tier is
`junior` exactly at `1` (not on all of `[0, 2)`: `0` falls through the
truthiness guard), `senior` exactly at `5` and above, and `mid`
otherwise (`0` and `2..4`); a missing value defaults to `mid`. -/
theorem C4_amended_tier :
    CM.experienceLevel none = "mid" ∧
    ∀ y : Int, 0 ≤ y → y ≤ 50 →
      ((CM.experienceLevel (some y) = "junior" ↔ y = 1) ∧
       (CM.experienceLevel (some y) = "senior" ↔ 5 ≤ y) ∧
       (CM.experienceLevel (some y) = "mid" ↔ (y = 0 ∨ (2 ≤ y ∧ y ≤ 4)))) := by
  refine ⟨rfl, fun y h0 h50 => ?_⟩
  simp only [CM.experienceLevel]
  split_ifs with h1 h2 h3
  · exact ⟨iff_of_false (by decide) (by omega),
      iff_of_false (by decide) (by omega), iff_of_true rfl (Or.inl h1)⟩
  · exact ⟨iff_of_true rfl (by omega), iff_of_false (by decide) (by omega),
      iff_of_false (by decide) (by omega)⟩
  · exact ⟨iff_of_false (by decide) (by omega), iff_of_true rfl (by omega),
      iff_of_false (by decide) (by omega)⟩
  · exact ⟨iff_of_false (by decide) (by omega),
      iff_of_false (by decide) (by omega), iff_of_true rfl (by omega)⟩

/-- C4 — witness: the amended theorem instantiated at one year of
experience yields the `junior` tier. -/
theorem C4_amended_tier_witness : CM.experienceLevel (some 1) = "junior" :=
  ((C4_amended_tier.2 1 (by decide) (by decide)).1).mpr rfl

/-! ## Claim C2 -/

theorem fallback_filterMap (t0 : String) (rest : List String) :
    ∀ l : List String,
      (l.map (fun tech => some (CM.fallbackQData tech))).filterMap
          (fun oq => oq.bind (CM.buildQuestion (t0 :: rest)))
        = l.map CM.fallbackTQ
  | [] => rfl
  | t :: l => by
    have ih := fallback_filterMap t0 rest l
    calc ((t :: l).map (fun tech => some (CM.fallbackQData tech))).filterMap
            (fun oq => oq.bind (CM.buildQuestion (t0 :: rest)))
        = CM.fallbackTQ t :: (l.map (fun tech => some (CM.fallbackQData tech))).filterMap
            (fun oq => oq.bind (CM.buildQuestion (t0 :: rest))) := rfl
      _ = CM.fallbackTQ t :: l.map CM.fallbackTQ := by rw [ih]

/-- C2 — counterexample.  With a single-technology stack and a failing
external call, the builder returns exactly one fallback question — not a
list of length 3 to 5 as the claim requires for every non-empty tech
stack. -/
theorem C2_counterexample :
    (["Python"] : List String) ≠ [] ∧
    (CM.generateTechnicalQuestions .failure ["Python"] (some 1)).length = 1 ∧
    ¬(3 ≤ (CM.generateTechnicalQuestions .failure ["Python"] (some 1)).length ∧
      (CM.generateTechnicalQuestions .failure ["Python"] (some 1)).length ≤ 5) := by
  refine ⟨by decide, rfl, ?_⟩
  intro h
  exact absurd h.1 (by decide)

/-- C2 — amended.  For a non-empty tech stack, when the external call (or
its JSON parse) fails, the builder returns exactly one fallback question
per technology among the first `min 3 (length tech_stack)` technologies —
so fewer than 3 when the stack has fewer than 3 entries — each with
difficulty `intermediate` and concepts `["experience", "practical
application"]`; and when the response parses as JSON but is not a list,
the builder returns the empty list without falling back. -/
theorem C2_amended_fallback :
    ∀ (tech_stack : List String) (experience_years : Option Int),
      tech_stack ≠ [] →
      CM.generateTechnicalQuestions .failure tech_stack experience_years
          = (tech_stack.take 3).map CM.fallbackTQ ∧
      (CM.generateTechnicalQuestions .failure tech_stack experience_years).length
          = min 3 tech_stack.length ∧
      (∀ q ∈ CM.generateTechnicalQuestions .failure tech_stack experience_years,
        q.difficulty_level = "intermediate" ∧
        q.expected_concepts = ["experience", "practical application"]) ∧
      CM.generateTechnicalQuestions .parsedNonList tech_stack experience_years = [] := by
  intro tech_stack experience_years hne
  rcases tech_stack with _ | ⟨t0, rest⟩
  · exact absurd rfl hne
  · have hstep : CM.generateTechnicalQuestions .failure (t0 :: rest) experience_years
        = ((((t0 :: rest).take 3).map (fun tech => some (CM.fallbackQData tech))).take 3).filterMap
            (fun oq => oq.bind (CM.buildQuestion (t0 :: rest))) := rfl
    have hlen : (((t0 :: rest).take 3).map (fun tech => some (CM.fallbackQData tech))).length ≤ 3 := by
      simp
    have hmain : CM.generateTechnicalQuestions .failure (t0 :: rest) experience_years
        = ((t0 :: rest).take 3).map CM.fallbackTQ := by
      rw [hstep, List.take_of_length_le hlen]
      exact fallback_filterMap t0 rest ((t0 :: rest).take 3)
    refine ⟨hmain, ?_, ?_, rfl⟩
    · rw [hmain, List.length_map, List.length_take]
    · intro q hq
      rw [hmain] at hq
      simp only [List.mem_map] at hq
      obtain ⟨t, _, rfl⟩ := hq
      exact ⟨rfl, rfl⟩

/-- C2 — witness: the amended theorem at the three-technology stack of
the spec example. -/
theorem C2_amended_fallback_witness :
    CM.generateTechnicalQuestions .failure ["Python", "Django", "PostgreSQL"] (some 1)
      = [CM.fallbackTQ "Python", CM.fallbackTQ "Django", CM.fallbackTQ "PostgreSQL"] :=
  (C2_amended_fallback ["Python", "Django", "PostgreSQL"] (some 1) (by decide)).1.trans rfl

/-! ## Claim C1 -/

theorem mergeStr_overwrite (cur : Option String) (v : String) (hv : v ≠ "") :
    CM.mergeStr cur (some v) = some v := by
  simp [CM.mergeStr, hv]

theorem mergeInt_overwrite (cur : Option Int) (n : Int) (hn : n ≠ 0) :
    CM.mergeInt cur (some n) = some n := by
  simp [CM.mergeInt, hn]

theorem pySetUnion_mem (a b : List String) (t : String) :
    t ∈ CM.pySetUnion a b ↔ t ∈ a ∨ t ∈ b := by
  simp [CM.pySetUnion, List.mem_dedup, List.mem_append]

/-- C1 — counterexample.  The merge overwrites an already-set non-empty
scalar field: a profile whose name is `"Alice"` merged with an extraction
carrying the name `"Bob"` ends up named `"Bob"`. -/
theorem C1_counterexample :
    truthyStr CM.cexCandidate.name = true ∧
    (CM.updateCandidateInfo CM.cexCandidate CM.cexExtract).name = some "Bob" ∧
    (CM.updateCandidateInfo CM.cexCandidate CM.cexExtract).name ≠ CM.cexCandidate.name := by
  refine ⟨by decide, rfl, ?_⟩
  intro h
  rw [show (CM.updateCandidateInfo CM.cexCandidate CM.cexExtract).name = some "Bob" from rfl] at h
  exact absurd h (by decide)

/-- C1 — amended.  In `_update_candidate_info` a present non-empty scalar
value always overwrites the field, whether or not the field was already
set (an absent key leaves the field unchanged); `tech_stack` is indeed
combined by set union — the merged stack holds exactly the union of the
old and new entries, though the Python `set` union does not preserve
order — while `update_from_dict` (the `models.py` merge) instead replaces
`tech_stack` outright with any non-empty new list. -/
theorem C1_amended_merge :
    (∀ (c : CM.CandidateInfo) (e : CM.ExtractedInfo),
      (∀ v, e.name = some v → v ≠ "" →
        (CM.updateCandidateInfo c e).name = some v) ∧
      (∀ v, e.email = some v → v ≠ "" →
        (CM.updateCandidateInfo c e).email = some v) ∧
      (∀ v, e.phone = some v → v ≠ "" →
        (CM.updateCandidateInfo c e).phone = some v) ∧
      (∀ v, e.desired_position = some v → v ≠ "" →
        (CM.updateCandidateInfo c e).desired_position = some v) ∧
      (∀ v, e.location = some v → v ≠ "" →
        (CM.updateCandidateInfo c e).location = some v) ∧
      (∀ n, e.experience_years = some n → n ≠ 0 →
        (CM.updateCandidateInfo c e).experience_years = some n) ∧
      (e.name = none → (CM.updateCandidateInfo c e).name = c.name) ∧
      (∀ t, t ∈ (CM.updateCandidateInfo c e).tech_stack ↔
        (t ∈ c.tech_stack ∨ ∃ ts, e.tech_stack = some ts ∧ t ∈ ts)) ∧
      (e.tech_stack = none → (CM.updateCandidateInfo c e).tech_stack = c.tech_stack)) ∧
    (∀ (c : Bot.CandidateInfo) (d : Bot.UpdateDict) (ts : List String),
      d.tech_stack = some ts → ts ≠ [] → (Bot.update_from_dict c d).tech_stack = ts) := by
  constructor
  · intro c e
    refine ⟨?_, ?_, ?_, ?_, ?_, ?_, ?_, ?_, ?_⟩
    · intro v hv hne
      simp only [CM.updateCandidateInfo, hv]
      exact mergeStr_overwrite c.name v hne
    · intro v hv hne
      simp only [CM.updateCandidateInfo, hv]
      exact mergeStr_overwrite c.email v hne
    · intro v hv hne
      simp only [CM.updateCandidateInfo, hv]
      exact mergeStr_overwrite c.phone v hne
    · intro v hv hne
      simp only [CM.updateCandidateInfo, hv]
      exact mergeStr_overwrite c.desired_position v hne
    · intro v hv hne
      simp only [CM.updateCandidateInfo, hv]
      exact mergeStr_overwrite c.location v hne
    · intro n hn hne
      simp only [CM.updateCandidateInfo, hn]
      exact mergeInt_overwrite c.experience_years n hne
    · intro hn
      simp [CM.updateCandidateInfo, hn, CM.mergeStr]
    · intro t
      simp only [CM.updateCandidateInfo]
      rcases hts : e.tech_stack with _ | ts
      · simp [hts]
      · simp [pySetUnion_mem]
    · intro hts
      simp [CM.updateCandidateInfo, hts]
  · intro c d ts hts hne
    simp [Bot.update_from_dict, hts, hne]

/-- C1 — witness: the amended theorem applied at the concrete
overwriting merge and at a concrete tech-stack replacement. -/
theorem C1_amended_merge_witness :
    (CM.updateCandidateInfo CM.cexCandidate CM.cexExtract).name = some "Bob" ∧
    (Bot.update_from_dict Bot.emptyCandidate Bot.dictGo).tech_stack = ["Go"] :=
  ⟨(C1_amended_merge.1 CM.cexCandidate CM.cexExtract).1 "Bob" rfl (by decide),
   C1_amended_merge.2 Bot.emptyCandidate Bot.dictGo ["Go"] rfl (by decide)⟩

/-! ## Claim C6 -/

theorem string_toList_ne_nil {u : String} (hu : u ≠ "") : u.toList ≠ [] := by
  intro h
  apply hu
  cases u with
  | mk data => exact congrArg String.mk h

theorem nameStep_ok (u : String) (h : u.toList ≠ []) :
    ∃ r, WApp.nameStep u = Except.ok r := by
  unfold WApp.nameStep
  rcases hc : u.toList with _ | ⟨c, cs⟩
  · exact absurd hc h
  · simp only [hc]
    split_ifs <;> exact ⟨_, rfl⟩

/-- C6 — counterexample.  On the empty utterance the extractor raises
`IndexError` at `user_input[0]` instead of returning normally, so the
claim that it never raises on every string (including the empty string)
fails. -/
theorem C6_counterexample : WApp.extract_info_smart "" = Except.error () := rfl

/-- C6 — amended.  On every non-empty utterance the extractor returns
normally (the empty string is the only raising input), and whenever none
of the recognised patterns fires — no name cue or short capitalised
phrase, no email or 10-15 digit run, no time-unit number, no role,
location or technology keyword — the returned mapping is empty. -/
theorem C6_amended_extractor :
    ∀ u : String, u ≠ "" →
      (WApp.extract_info_smart u).isOk = true ∧
      (WApp.noPattern u = true → WApp.extract_info_smart u = Except.ok WApp.emptySmart) := by
  intro u hu
  obtain ⟨r, hr⟩ := nameStep_ok u (string_toList_ne_nil hu)
  constructor
  · simp only [WApp.extract_info_smart, hr]
    rfl
  · intro hnp
    simp only [WApp.noPattern, Bool.and_eq_true, Option.isNone_iff_eq_none] at hnp
    obtain ⟨⟨⟨⟨⟨⟨h1, h2⟩, h3⟩, h4⟩, h5⟩, h6⟩, h7⟩ := hnp
    rw [hr] at h1
    have hrn : r = none := by
      cases r with
      | none => rfl
      | some v => simp at h1
    simp only [WApp.extract_info_smart, hr, hrn, h2, h3, h4, h5, h6, h7]
    rfl

/-- C6 — witness: the amended theorem applied at `"hello there"`, an
utterance with no recognisable pattern. -/
theorem C6_amended_extractor_witness :
    (WApp.extract_info_smart "hello there").isOk = true ∧
    WApp.extract_info_smart "hello there" = Except.ok WApp.emptySmart := by
  have h := C6_amended_extractor "hello there" (by decide)
  exact ⟨h.1, h.2 (by decide)⟩

/-! ## Claims C3 and C10 -/

/-- C3 — confirmed.  Whatever state a session is in and whatever the
model does, an utterance containing an ending keyword short-circuits
`process_message` straight to the `ENDING` state, and the returned
message is the model-generated farewell for the collected profile. -/
theorem C3_ending_shortcircuit :
    ∀ (o : Bot.LLMOracle) (s : Bot.Session) (u : String),
      Bot.containsEndingKeyword u = true →
      (Bot.process_message o s u).2.state = "ending" ∧
      (Bot.process_message o s u).1
        = o.generate_ending_message (pyOrStr s.candidate.full_name "candidate") := by
  intro o s u h
  constructor
  · simp [Bot.process_message, Bot.addMessage, Bot.handleEnding, h]
  · simp [Bot.process_message, Bot.addMessage, Bot.handleEnding, h]

/-- C3 — witness: a `"bye"` utterance sent to a fresh session ends it. -/
theorem C3_ending_shortcircuit_witness :
    (Bot.process_message Bot.botOracle0 (Bot.startSession "Welcome!") "bye").2.state
      = "ending" ∧
    (Bot.process_message Bot.botOracle0 (Bot.startSession "Welcome!") "bye").1
      = Bot.botOracle0.generate_ending_message
          (pyOrStr (Bot.startSession "Welcome!").candidate.full_name "candidate") :=
  C3_ending_shortcircuit Bot.botOracle0 (Bot.startSession "Welcome!") "bye" (by decide)

/-- C10 — confirmed.  Ending detection is substring based: the utterance
`"attended"` contains the keyword `"end"` only inside a longer word — no
ending keyword occurs as a whole word of the utterance — yet
`process_message` still short-circuits the session to `ENDING` and
returns the farewell. -/
theorem C10_substring_ending :
    (pySplitWs "attended").all (fun w => !(Bot.ENDING_KEYWORDS.contains w)) = true ∧
    Bot.containsEndingKeyword "attended" = true ∧
    (Bot.process_message Bot.botOracle0 (Bot.startSession "Welcome!") "attended").2.state
      = "ending" ∧
    (Bot.process_message Bot.botOracle0 (Bot.startSession "Welcome!") "attended").1
      = "Thank you, candidate! Farewell." := by
  refine ⟨by decide, by decide, ?_, ?_⟩ <;> rfl

/-! ## Claim C8 -/

theorem missing_empty_tech {c : Bot.CandidateInfo}
    (h : Bot.missing_fields c = []) : c.tech_stack ≠ [] := by
  intro ht
  have hmem : "tech_stack" ∈ Bot.missing_fields c := by
    simp [Bot.missing_fields, missTag, ht]
  rw [h] at hmem
  exact absurd hmem (List.not_mem_nil _)

theorem infoCollectUpdate_state (o : Bot.LLMOracle) (s : Bot.Session) (u : String) :
    (Bot.infoCollectUpdate o s u).state = s.state := by
  simp only [Bot.infoCollectUpdate]
  split <;> rfl

theorem hqg_state (o : Bot.LLMOracle) (s : Bot.Session) :
    (Bot.handleQuestionGeneration o s).2.state = "asking_questions" ∨
    (Bot.handleQuestionGeneration o s).2.state = s.state := by
  simp only [Bot.handleQuestionGeneration]
  split
  · split
    · exact Or.inl rfl
    · exact Or.inl rfl
  · split
    · exact Or.inr rfl
    · exact Or.inr rfl

theorem hqa_state (o : Bot.LLMOracle) (s : Bot.Session) :
    (Bot.handleQuestionAnswering o s).2.state = s.state ∨
    (Bot.handleQuestionAnswering o s).2.state = "ending" := by
  simp only [Bot.handleQuestionAnswering, Bot.handleEnding]
  split
  · exact Or.inl rfl
  · exact Or.inr rfl

theorem htsc_state (o : Bot.LLMOracle) (s : Bot.Session) (u : String) :
    (Bot.handleTechStackCollection o s u).2.state = s.state ∨
    (Bot.handleTechStackCollection o s u).2.state = "generating_questions" := by
  simp only [Bot.handleTechStackCollection]
  split
  · exact Or.inr rfl
  · exact Or.inl rfl

theorem hic_state (o : Bot.LLMOracle) (s : Bot.Session) (u : String) :
    (Bot.handleInfoCollection o s u).2.state = s.state ∨
    (Bot.handleInfoCollection o s u).2.state = "generating_questions" ∨
    (Bot.handleInfoCollection o s u).2.state = "asking_questions" := by
  simp only [Bot.handleInfoCollection]
  split_ifs with h1 h2
  · exact absurd h2 (missing_empty_tech h1)
  · rcases hqg_state o { Bot.infoCollectUpdate o s u with state := "generating_questions" }
      with hh | hh
    · exact Or.inr (Or.inr hh)
    · exact Or.inr (Or.inl hh)
  · exact Or.inl (infoCollectUpdate_state o s u)

theorem process_message_no_cts (o : Bot.LLMOracle) (s : Bot.Session) (u : String)
    (h : s.state ≠ "collecting_tech_stack") :
    (Bot.process_message o s u).2.state ≠ "collecting_tech_stack" := by
  simp only [Bot.process_message, Bot.addMessage]
  split_ifs with h1 h2 h3 h4
  · intro hc
    have hlit : ("ending" : String) = "collecting_tech_stack" := hc
    exact absurd hlit (by decide)
  · rcases hic_state o { s with messages := s.messages ++ [("user", u)] } u with hh | hh | hh
    · exact fun hc => h (hh.symm.trans hc)
    · exact fun hc => absurd (hh.symm.trans hc) (by decide)
    · exact fun hc => absurd (hh.symm.trans hc) (by decide)
  · rcases hqg_state o { s with messages := s.messages ++ [("user", u)] } with hh | hh
    · exact fun hc => absurd (hh.symm.trans hc) (by decide)
    · exact fun hc => h (hh.symm.trans hc)
  · rcases hqa_state o { s with messages := s.messages ++ [("user", u)] } with hh | hh
    · exact fun hc => h (hh.symm.trans hc)
    · exact fun hc => absurd (hh.symm.trans hc) (by decide)
  · exact fun hc => h hc

/-- C8 — confirmed.  In every session reachable through
`start_conversation` and `process_message` the state is never
`COLLECTING_TECH_STACK`: the only transition into that state requires
`missing_fields()` to be empty, and empty `missing_fields()` already
forces a non-empty tech stack, so the guard can never fire. -/
theorem C8_no_tech_stack_state :
    ∀ s : Bot.Session, Bot.Reachable s → s.state ≠ "collecting_tech_stack" := by
  intro s h
  induction h with
  | start greeting =>
    exact (show ("collecting_info" : String) ≠ "collecting_tech_stack" by decide)
  | step o u hs ih => exact process_message_no_cts o _ u ih

/-- C8 — witness: the invariant applied to a freshly started session. -/
theorem C8_no_tech_stack_state_witness :
    (Bot.startSession "Welcome!").state ≠ "collecting_tech_stack" :=
  C8_no_tech_stack_state _ (Bot.Reachable.start "Welcome!")

/-! ## Claims C9 and C5 -/

theorem infoMono_refl (c : CM.CandidateInfo) : CM.infoMono c c :=
  ⟨id, id, id, id, id, id, fun _ => id⟩

theorem mergeStr_mono (cur v : Option String) (h : truthyStr cur = true) :
    truthyStr (CM.mergeStr cur v) = true := by
  cases v with
  | none => exact h
  | some val =>
    simp only [CM.mergeStr]
    split_ifs with hc
    · rw [h] at hc
      simp only [Bool.not_true, Bool.false_or, decide_eq_true_eq] at hc
      simp [truthyStr, hc]
    · exact h

theorem mergeInt_some (cur v : Option Int) (h : cur ≠ none) :
    CM.mergeInt cur v ≠ none := by
  cases v with
  | none => exact h
  | some val =>
    simp only [CM.mergeInt]
    split_ifs
    · simp
    · exact h

theorem updateCandidateInfo_mono (c : CM.CandidateInfo) (e : CM.ExtractedInfo) :
    CM.infoMono c (CM.updateCandidateInfo c e) := by
  refine ⟨?_, ?_, ?_, ?_, ?_, ?_, ?_⟩
  · exact fun h => mergeStr_mono c.name e.name h
  · exact fun h => mergeStr_mono c.email e.email h
  · exact fun h => mergeStr_mono c.phone e.phone h
  · exact fun h => mergeStr_mono c.desired_position e.desired_position h
  · exact fun h => mergeStr_mono c.location e.location h
  · exact fun h => mergeInt_some c.experience_years e.experience_years h
  · intro t ht
    simp only [CM.updateCandidateInfo]
    cases hts : e.tech_stack with
    | none => exact ht
    | some ts => exact (pySetUnion_mem c.tech_stack ts t).mpr (Or.inl ht)

theorem bool_mono_not {a b : Bool} (h : a = true → b = true) (hb : (!b) = true) :
    (!a) = true := by
  cases a with
  | false => rfl
  | true => rw [h rfl] at hb; exact hb

theorem isNone_mono {β : Type} {a b : Option β} (h : a ≠ none → b ≠ none)
    (hb : b.isNone = true) : a.isNone = true := by
  cases ha : a with
  | none => rfl
  | some v =>
    exact absurd (Option.isNone_iff_eq_none.mp hb) (h (by rw [ha]; simp))

theorem isEmpty_mono {α : Type} {a b : List α} (h : ∀ t, t ∈ a → t ∈ b)
    (hb : b.isEmpty = true) : a.isEmpty = true := by
  cases ha : a with
  | nil => rfl
  | cons t ts =>
    have hm := h t (by rw [ha]; exact List.mem_cons_self t ts)
    rw [List.isEmpty_iff] at hb
    rw [hb] at hm
    exact absurd hm (List.not_mem_nil t)

theorem infoMono_missing {a b : CM.CandidateInfo} (h : CM.infoMono a b) :
    ∀ x ∈ CM.getMissingInformation b, x ∈ CM.getMissingInformation a := by
  obtain ⟨h1, h2, h3, h4, h5, h6, h7⟩ := h
  intro x hx
  simp only [CM.getMissingInformation, List.mem_append, mem_missTag] at hx ⊢
  rcases hx with ((((((hx | hx) | hx) | hx) | hx) | hx) | hx)
  · exact Or.inl (Or.inl (Or.inl (Or.inl (Or.inl (Or.inl
      ⟨bool_mono_not h1 hx.1, hx.2⟩)))))
  · exact Or.inl (Or.inl (Or.inl (Or.inl (Or.inl (Or.inr
      ⟨bool_mono_not h2 hx.1, hx.2⟩)))))
  · exact Or.inl (Or.inl (Or.inl (Or.inl (Or.inr
      ⟨bool_mono_not h3 hx.1, hx.2⟩))))
  · exact Or.inl (Or.inl (Or.inl (Or.inr ⟨isNone_mono h6 hx.1, hx.2⟩)))
  · exact Or.inl (Or.inl (Or.inr ⟨bool_mono_not h4 hx.1, hx.2⟩))
  · exact Or.inl (Or.inr ⟨bool_mono_not h5 hx.1, hx.2⟩)
  · exact Or.inr ⟨isEmpty_mono h7 hx.1, hx.2⟩

theorem resState_cig (o : CM.TurnOracle) (s : CM.ConvState) :
    CM.resState (CM.continueInfoGathering o s) = s := by
  simp only [CM.continueInfoGathering]
  rcases hm : s.missing_info with _ | ⟨f, rest⟩
  · rfl
  · simp only [hm]
    split_ifs <;> rfl

theorem resState_conclude (o : CM.TurnOracle) (s : CM.ConvState) :
    CM.resState (CM.concludeInterview o s) = s := by
  simp only [CM.concludeInterview]
  split_ifs <;> rfl

theorem resState_conclusion (o : CM.TurnOracle) (s : CM.ConvState) :
    CM.resState (CM.handleConclusion o s) = s := by
  simp only [CM.handleConclusion]
  split_ifs <;> rfl

theorem resState_hta_cand (o : CM.TurnOracle) (s : CM.ConvState) :
    (CM.resState (CM.handleTechnicalAnswer o s)).candidate_info = s.candidate_info := by
  simp only [CM.handleTechnicalAnswer]
  rcases hq : s.technical_questions with _ | ⟨q1, _ | ⟨q2, rest⟩⟩ <;> simp only [hq]
  · rw [resState_conclude]
  · rw [resState_conclude]
  · rfl

theorem resState_htq_cand (o : CM.TurnOracle) (s : CM.ConvState) :
    (CM.resState (CM.handleTechQuestions o s)).candidate_info = s.candidate_info := by
  simp only [CM.handleTechQuestions]
  split_ifs with h1 h2 h3
  · split <;> rfl
  · split <;> rfl
  · rfl
  · exact resState_hta_cand o s

theorem resState_greeting_cand (o : CM.TurnOracle) (s : CM.ConvState) :
    (CM.resState (CM.handleGreeting o s)).candidate_info
      = CM.updateCandidateInfo s.candidate_info (CM.extractInformationSafe o.rawExtract) := by
  simp only [CM.handleGreeting]
  rw [resState_cig]

theorem resState_infog_cand (o : CM.TurnOracle) (s : CM.ConvState) :
    (CM.resState (CM.handleInfoGathering o s)).candidate_info
      = CM.updateCandidateInfo s.candidate_info (CM.extractInformationSafe o.rawExtract) := by
  simp only [CM.handleInfoGathering]
  split_ifs with h1
  · rfl
  · rw [resState_cig]

theorem body_cand (o : CM.TurnOracle) (u : String) (s : CM.ConvState) :
    (CM.resState (CM.processUserInputBody o u s)).candidate_info = s.candidate_info ∨
    (CM.resState (CM.processUserInputBody o u s)).candidate_info
      = CM.updateCandidateInfo s.candidate_info (CM.extractInformationSafe o.rawExtract) := by
  simp only [CM.processUserInputBody]
  split_ifs with h1 h2 h3 h4
  · exact Or.inr (resState_greeting_cand o s)
  · exact Or.inr (resState_infog_cand o s)
  · exact Or.inl (resState_htq_cand o s)
  · exact Or.inl (by rw [resState_conclusion])
  · exact Or.inr (resState_infog_cand o s)

theorem processUserInput_snd (o : CM.TurnOracle) (u : String) (s : CM.ConvState) :
    (CM.processUserInput o u s).2 = CM.resState (CM.processUserInputBody o u s) := by
  rcases hb : CM.processUserInputBody o u s with s1 | r <;>
    simp [CM.processUserInput, CM.resState, hb]

/-- C9 — confirmed.  Across every `process_user_input` turn — any state,
any utterance, any model behaviour, faulting or not — the candidate
profile only grows: no scalar field goes from set back to unset,
`experience_years` never returns to `None`, no tech-stack entry is lost,
and the missing-information list never gains an entry. -/
theorem C9_profile_monotone :
    ∀ (o : CM.TurnOracle) (u : String) (s : CM.ConvState),
      CM.infoMono s.candidate_info (CM.processUserInput o u s).2.candidate_info ∧
      (∀ x ∈ CM.getMissingInformation (CM.processUserInput o u s).2.candidate_info,
        x ∈ CM.getMissingInformation s.candidate_info) := by
  intro o u s
  have hmono : CM.infoMono s.candidate_info (CM.processUserInput o u s).2.candidate_info := by
    rw [processUserInput_snd]
    rcases body_cand o u s with h | h
    · rw [h]; exact infoMono_refl _
    · rw [h]; exact updateCandidateInfo_mono _ _
  exact ⟨hmono, infoMono_missing hmono⟩

/-- C9 — witness: on a concrete turn the already-set name stays set and
the computed missing field `email` was already missing before the turn. -/
theorem C9_profile_monotone_witness :
    truthyStr (CM.processUserInput CM.quietOracle "hello" CM.monoState).2.candidate_info.name
      = true ∧
    "email" ∈ CM.getMissingInformation CM.monoState.candidate_info := by
  have h := C9_profile_monotone CM.quietOracle "hello" CM.monoState
  exact ⟨h.1.1 (by decide), h.2 "email" (by decide)⟩

/-- C5 — counterexample.  A turn in which the farewell rendering raises
returns the generic apology, but the conversation state is not the state
the turn began in: the step was already advanced to `conclusion`. -/
theorem C5_counterexample :
    (CM.processUserInput CM.cexOracle "My answer." CM.cexState).1 = CM.errorHandlingPrompt ∧
    (CM.processUserInput CM.cexOracle "My answer." CM.cexState).2.current_step = "conclusion" ∧
    CM.cexState.current_step = "tech_questions" ∧
    (CM.processUserInput CM.cexOracle "My answer." CM.cexState).2 ≠ CM.cexState := by
  refine ⟨rfl, rfl, rfl, ?_⟩
  intro hc
  have hlit : ("conclusion" : String) = "tech_questions" :=
    congrArg CM.ConvState.current_step hc
  exact absurd hlit (by decide)

/-- C5 — amended.  When an unexpected internal error is raised while
processing the turn, `process_user_input` returns the generic apology
message instead of propagating the exception, and the resulting state is
the state at the moment of the raise — mutations already made persist
(there is no rollback), though the profile itself is still only ever
extended monotonically. -/
theorem C5_amended_error_handling :
    ∀ (o : CM.TurnOracle) (u : String) (s s1 : CM.ConvState),
      CM.processUserInputBody o u s = Except.error s1 →
      CM.processUserInput o u s = (CM.errorHandlingPrompt, s1) ∧
      CM.infoMono s.candidate_info s1.candidate_info := by
  intro o u s s1 hb
  constructor
  · simp [CM.processUserInput, hb]
  · have h := body_cand o u s
    rw [hb] at h
    rw [show CM.resState (Except.error s1) = s1 from rfl] at h
    rcases h with h | h
    · rw [h]; exact infoMono_refl _
    · rw [h]; exact updateCandidateInfo_mono _ _

/-- C5 — witness: the amended theorem applied to the concrete faulting
turn of the counterexample. -/
theorem C5_amended_error_handling_witness :
    CM.processUserInput CM.cexOracle "My answer." CM.cexState
      = (CM.errorHandlingPrompt, CM.cexStateAfter) ∧
    CM.infoMono CM.cexState.candidate_info CM.cexStateAfter.candidate_info :=
  C5_amended_error_handling CM.cexOracle "My answer." CM.cexState CM.cexStateAfter rfl
